import Mathlib

/-!
Verification of the transport-request submission backend
(`backend/fastapi_app.py`): a shallow embedding of the submission
handler (`submit_transport_request`), the payload validation
(`TransportRequest` with `validate_non_empty_string`) and the record
store (`save_to_excel`), together with theorems about the behaviour
the specification describes.

Machine-level effects (clock reads, the random draw, I/O failures,
elapsed time) are passed in explicitly through an `Env` value; the
file system is explicit state (`FS`).
-/

namespace TransportApp

/-! ### Decimal rendering

Models the zero-padded CPython `strftime` fields (`%Y`, `%m`, `%d`,
`%H`, `%M`, `%S`) and `str()` on integers.  `natDigitsRev k n` is the
list of the `k` low decimal digits of `n`, least significant first. -/

def natDigitsRev : Nat → Nat → List Nat
  | 0, _ => []
  | k+1, n => n % 10 :: natDigitsRev k (n / 10)

def ofDigitsRev : List Nat → Nat
  | [] => 0
  | d :: ds => d + 10 * ofDigitsRev ds

/-- Render `n` as exactly `k` decimal digits, zero-padded. -/
def pad (k n : Nat) : String :=
  String.mk (((natDigitsRev k n).map Nat.digitChar).reverse)

theorem ofDigitsRev_natDigitsRev (k n : Nat) :
    ofDigitsRev (natDigitsRev k n) = n % 10 ^ k := by
  induction k generalizing n with
  | zero => simp [natDigitsRev, ofDigitsRev, Nat.mod_one]
  | succ k ih =>
    simp only [natDigitsRev, ofDigitsRev, ih]
    have hp : 0 < 10 ^ k := pow_pos (by norm_num) k
    set p := 10 ^ k with hpdef
    have h1 : (10:Nat) ^ (k+1) = 10 * p := by rw [hpdef]; ring
    rw [h1]
    have e1 : 10 * (n / 10) + n % 10 = n := Nat.div_add_mod n 10
    have hq : p * (n / 10 / p) + n / 10 % p = n / 10 := Nat.div_add_mod (n / 10) p
    have key : n = n % 10 + 10 * (n / 10 % p) + n / 10 / p * (10 * p) := by
      conv_lhs => rw [← e1, ← hq]
      ring
    conv_rhs => rw [key]
    rw [Nat.add_mul_mod_self_right]
    have hlt : n % 10 + 10 * (n / 10 % p) < 10 * p := by
      have h2 : n % 10 < 10 := Nat.mod_lt _ (by norm_num)
      have h3 : n / 10 % p < p := Nat.mod_lt _ hp
      omega
    exact (Nat.mod_eq_of_lt hlt).symm

theorem natDigitsRev_length (k n : Nat) : (natDigitsRev k n).length = k := by
  induction k generalizing n with
  | zero => rfl
  | succ k ih => simp [natDigitsRev, ih]

theorem natDigitsRev_lt (k n : Nat) : ∀ x ∈ natDigitsRev k n, x < 10 := by
  induction k generalizing n with
  | zero => intro x hx; simp [natDigitsRev] at hx
  | succ k ih =>
    intro x hx
    simp only [natDigitsRev, List.mem_cons] at hx
    rcases hx with rfl | hx
    · exact Nat.mod_lt _ (by norm_num)
    · exact ih _ x hx

theorem digitChar_isDigit : ∀ d, d < 10 → (Nat.digitChar d).isDigit = true := by decide

theorem digitChar_toNat : ∀ d, d < 10 → (Nat.digitChar d).toNat - 48 = d := by decide

theorem pad_data_length (k n : Nat) : (pad k n).data.length = k := by
  simp [pad, natDigitsRev_length]

theorem pad_length (k n : Nat) : (pad k n).length = k :=
  pad_data_length k n

theorem pad_all_isDigit (k n : Nat) : (pad k n).data.all Char.isDigit = true := by
  simp only [pad, List.all_eq_true, List.mem_reverse, List.mem_map]
  rintro c ⟨d, hd, rfl⟩
  exact digitChar_isDigit d (natDigitsRev_lt k n d hd)

/-- Reading the digits back: decodes a `pad`-rendered block. -/
def unpad (l : List Char) : Nat :=
  ofDigitsRev (l.reverse.map (fun c => c.toNat - 48))

theorem map_digit_roundtrip (l : List Nat) (h : ∀ x ∈ l, x < 10) :
    l.map (fun d => (Nat.digitChar d).toNat - 48) = l := by
  induction l with
  | nil => rfl
  | cons a t ih =>
    simp only [List.map_cons, List.cons.injEq]
    refine ⟨digitChar_toNat a (h a (List.mem_cons_self _ _)), ?_⟩
    exact ih (fun x hx => h x (List.mem_cons_of_mem _ hx))

theorem unpad_pad (k n : Nat) (h : n < 10 ^ k) : unpad (pad k n).data = n := by
  simp only [unpad, pad, List.reverse_reverse, List.map_map]
  have hmap := map_digit_roundtrip (natDigitsRev k n) (natDigitsRev_lt k n)
  rw [show ((fun c : Char => c.toNat - 48) ∘ Nat.digitChar) =
        (fun d : Nat => (Nat.digitChar d).toNat - 48) from rfl,
    hmap, ofDigitsRev_natDigitsRev]
  exact Nat.mod_eq_of_lt h

theorem pad_inj (k m n : Nat) (hm : m < 10 ^ k) (hn : n < 10 ^ k)
    (h : pad k m = pad k n) : m = n := by
  have h2 := congrArg (fun s : String => unpad s.data) h
  simpa [unpad_pad k m hm, unpad_pad k n hn] using h2

theorem pad_data_inj (k m n : Nat) (hm : m < 10 ^ k) (hn : n < 10 ^ k)
    (h : (pad k m).data = (pad k n).data) : m = n := by
  have h2 := congrArg unpad h
  rwa [unpad_pad k m hm, unpad_pad k n hn] at h2

/-- Bridging `str()` on an integer to the padded rendering: a number in
`[100, 999]` prints as exactly its three digits. -/
theorem repr_eq_pad3_all :
    ((List.range 900).all (fun i => Nat.repr (100 + i) == pad 3 (100 + i))) = true := by
  set_option maxRecDepth 4096 in decide

theorem repr_eq_pad3 (r : Nat) (h1 : 100 ≤ r) (h2 : r ≤ 999) : Nat.repr r = pad 3 r := by
  have hmem : r - 100 ∈ List.range 900 := by rw [List.mem_range]; omega
  have hall := (List.all_eq_true.mp repr_eq_pad3_all) (r - 100) hmem
  have heq : 100 + (r - 100) = r := by omega
  rw [heq] at hall
  exact eq_of_beq hall

/-! ### Python string helpers

`pyStrip` models `str.strip()` (drop leading and trailing whitespace);
`splitextExt` models the extension component of `os.path.splitext`:
the suffix starting at the last dot of the final path component,
unless that component consists only of leading dots. -/

def pyStrip (s : String) : String :=
  String.mk (((s.data.dropWhile Char.isWhitespace).reverse.dropWhile Char.isWhitespace).reverse)

def splitextExt (p : String) : String :=
  let rev := p.data.reverse
  let seg := rev.takeWhile (fun c => c != '/')
  let afterDot := seg.takeWhile (fun c => c != '.')
  if afterDot.length = seg.length then ""
  else if (seg.drop (afterDot.length + 1)).all (fun c => c == '.') then ""
  else String.mk ('.' :: afterDot.reverse)

/-! ### Wall-clock values

`datetime.now()` is modelled as an explicit `DateTime` value handed to
the handler; `strftimeCompact` renders `"%Y%m%d-%H%M%S"` and
`isoformat` renders `datetime.isoformat()` (microseconds omitted when
zero, as CPython does). -/

structure DateTime where
  year : Nat
  month : Nat
  day : Nat
  hour : Nat
  minute : Nat
  second : Nat
deriving DecidableEq

def DateTime.valid (t : DateTime) : Prop :=
  1000 ≤ t.year ∧ t.year ≤ 9999 ∧ 1 ≤ t.month ∧ t.month ≤ 12 ∧
    1 ≤ t.day ∧ t.day ≤ 31 ∧ t.hour ≤ 23 ∧ t.minute ≤ 59 ∧ t.second ≤ 59

instance (t : DateTime) : Decidable t.valid := by
  unfold DateTime.valid; infer_instance

def strftimeCompact (t : DateTime) : String :=
  pad 4 t.year ++ pad 2 t.month ++ pad 2 t.day ++ "-" ++
    pad 2 t.hour ++ pad 2 t.minute ++ pad 2 t.second

def isoformat (t : DateTime) (micro : Nat) : String :=
  pad 4 t.year ++ "-" ++ pad 2 t.month ++ "-" ++ pad 2 t.day ++ "T" ++
    pad 2 t.hour ++ ":" ++ pad 2 t.minute ++ ":" ++ pad 2 t.second ++
    (if micro = 0 then "" else "." ++ pad 6 micro)

/-- The generated identifier, lines 80-82 of `fastapi_app.py`: the
literal REQ, the compact timestamp and the random draw, dash-separated. -/
def requestId (t : DateTime) (r : Nat) : String :=
  "REQ-" ++ strftimeCompact t ++ "-" ++ Nat.repr r

/-! ### The identifier pattern `REQ-\d{8}-\d{6}-\d{3}` -/

def digitRun : Nat → List Char → Option (List Char)
  | 0, l => some l
  | k+1, c :: l => if c.isDigit then digitRun k l else none
  | _+1, [] => none

def matchesReqIdPattern (s : String) : Bool :=
  match s.data with
  | 'R' :: 'E' :: 'Q' :: '-' :: rest =>
      match digitRun 8 rest with
      | some ('-' :: rest2) =>
          match digitRun 6 rest2 with
          | some ('-' :: rest3) =>
              match digitRun 3 rest3 with
              | some [] => true
              | _ => false
          | _ => false
      | _ => false
  | _ => false

theorem digitRun_append (d l : List Char) (h : d.all Char.isDigit = true) :
    digitRun d.length (d ++ l) = some l := by
  induction d with
  | nil => rfl
  | cons c t ih =>
    simp only [List.all_cons, Bool.and_eq_true] at h
    simp only [List.length_cons, List.cons_append, digitRun, h.1, if_true]
    exact ih h.2

theorem requestId_data (t : DateTime) (r : Nat) (h1 : 100 ≤ r) (h2 : r ≤ 999) :
    (requestId t r).data = 'R' :: 'E' :: 'Q' :: '-' ::
      (((pad 4 t.year).data ++ (pad 2 t.month).data ++ (pad 2 t.day).data) ++
        '-' :: (((pad 2 t.hour).data ++ (pad 2 t.minute).data ++ (pad 2 t.second).data) ++
          '-' :: (pad 3 r).data)) := by
  have hreq : ("REQ-" : String).data = ['R', 'E', 'Q', '-'] := rfl
  have hdash : ("-" : String).data = ['-'] := rfl
  simp [requestId, strftimeCompact, String.data_append, repr_eq_pad3 r h1 h2,
    hreq, hdash, List.append_assoc]

theorem requestId_matches (t : DateTime) (r : Nat) (h1 : 100 ≤ r) (h2 : r ≤ 999) :
    matchesReqIdPattern (requestId t r) = true := by
  set A := (pad 4 t.year).data ++ (pad 2 t.month).data ++ (pad 2 t.day).data with hA
  set B := (pad 2 t.hour).data ++ (pad 2 t.minute).data ++ (pad 2 t.second).data with hB
  set C := (pad 3 r).data with hC
  have hAlen : A.length = 8 := by simp [hA, List.length_append, pad_data_length, pad_length]
  have hBlen : B.length = 6 := by simp [hB, List.length_append, pad_data_length, pad_length]
  have hClen : C.length = 3 := by simp [hC, pad_data_length, pad_length]
  have hAdig : A.all Char.isDigit = true := by
    simp [hA, List.all_append, pad_all_isDigit]
  have hBdig : B.all Char.isDigit = true := by
    simp [hB, List.all_append, pad_all_isDigit]
  have hCdig : C.all Char.isDigit = true := by simp [hC, pad_all_isDigit]
  have e8 : digitRun 8 (A ++ '-' :: (B ++ '-' :: C)) = some ('-' :: (B ++ '-' :: C)) := by
    rw [← hAlen]; exact digitRun_append _ _ hAdig
  have e6 : digitRun 6 (B ++ '-' :: C) = some ('-' :: C) := by
    rw [← hBlen]; exact digitRun_append _ _ hBdig
  have e3 : digitRun 3 C = some [] := by
    have h0 := digitRun_append C [] hCdig
    rw [hClen, List.append_nil] at h0; exact h0
  unfold matchesReqIdPattern
  rw [requestId_data t r h1 h2]
  simp only [e8, e6, e3]

theorem requestId_inj (t₁ t₂ : DateTime) (r₁ r₂ : Nat)
    (hv₁ : t₁.valid) (hv₂ : t₂.valid)
    (ha₁ : 100 ≤ r₁) (hb₁ : r₁ ≤ 999) (ha₂ : 100 ≤ r₂) (hb₂ : r₂ ≤ 999)
    (h : requestId t₁ r₁ = requestId t₂ r₂) : t₁ = t₂ ∧ r₁ = r₂ := by
  have hd := congrArg String.data h
  rw [requestId_data t₁ r₁ ha₁ hb₁, requestId_data t₂ r₂ ha₂ hb₂] at hd
  simp only [List.cons.injEq] at hd
  obtain ⟨-, -, -, -, hd⟩ := hd
  obtain ⟨y₁, mo₁, dy₁, hr₁, mi₁, se₁⟩ := t₁
  obtain ⟨y₂, mo₂, dy₂, hr₂, mi₂, se₂⟩ := t₂
  obtain ⟨hy1, hy2, hm1, hm2, hd1, hd2, hh, hmi, hs⟩ := hv₁
  obtain ⟨hy1', hy2', hm1', hm2', hd1', hd2', hh', hmi', hs'⟩ := hv₂
  simp only at hd hy1 hy2 hm1 hm2 hd1 hd2 hh hmi hs hy1' hy2' hm1' hm2' hd1' hd2' hh' hmi' hs'
  have hABlen : ((pad 4 y₁).data ++ (pad 2 mo₁).data ++ (pad 2 dy₁).data).length =
      ((pad 4 y₂).data ++ (pad 2 mo₂).data ++ (pad 2 dy₂).data).length := by
    simp [List.length_append, pad_data_length, pad_length]
  obtain ⟨hdate, hrest⟩ := List.append_inj hd hABlen
  simp only [List.cons.injEq] at hrest
  obtain ⟨-, hrest⟩ := hrest
  have hBlen : ((pad 2 hr₁).data ++ (pad 2 mi₁).data ++ (pad 2 se₁).data).length =
      ((pad 2 hr₂).data ++ (pad 2 mi₂).data ++ (pad 2 se₂).data).length := by
    simp [List.length_append, pad_data_length, pad_length]
  obtain ⟨htime, hrand⟩ := List.append_inj hrest hBlen
  simp only [List.cons.injEq] at hrand
  obtain ⟨-, hrand⟩ := hrand
  -- date block
  have hlen46 : ((pad 4 y₁).data ++ (pad 2 mo₁).data).length =
      ((pad 4 y₂).data ++ (pad 2 mo₂).data).length := by
    simp [List.length_append, pad_data_length, pad_length]
  obtain ⟨hym, hday⟩ := List.append_inj hdate hlen46
  obtain ⟨hyear, hmon⟩ := List.append_inj hym (by simp [pad_data_length, pad_length])
  -- time block
  have hlen24 : ((pad 2 hr₁).data ++ (pad 2 mi₁).data).length =
      ((pad 2 hr₂).data ++ (pad 2 mi₂).data).length := by
    simp [List.length_append, pad_data_length, pad_length]
  obtain ⟨hhm, hsec⟩ := List.append_inj htime hlen24
  obtain ⟨hhour, hminute⟩ := List.append_inj hhm (by simp [pad_data_length, pad_length])
  have ey : y₁ = y₂ := pad_data_inj 4 y₁ y₂ (by omega) (by omega) hyear
  have em : mo₁ = mo₂ := pad_data_inj 2 mo₁ mo₂ (by omega) (by omega) hmon
  have ed : dy₁ = dy₂ := pad_data_inj 2 dy₁ dy₂ (by omega) (by omega) hday
  have eh : hr₁ = hr₂ := pad_data_inj 2 hr₁ hr₂ (by omega) (by omega) hhour
  have emi : mi₁ = mi₂ := pad_data_inj 2 mi₁ mi₂ (by omega) (by omega) hminute
  have es : se₁ = se₂ := pad_data_inj 2 se₁ se₂ (by omega) (by omega) hsec
  have er : r₁ = r₂ := pad_data_inj 3 r₁ r₂ (by omega) (by omega) hrand
  exact ⟨by rw [ey, em, ed, eh, emi, es], er⟩


/-! ### Payload and validation

The `data` form field after `json.loads`: a JSON object whose values
are strings, modelled as an association list.  `TransportRequest` and
its `validate_non_empty_string` field validator are from
`fastapi_app.py` lines 46–61; the six listed fields must be non-empty
after stripping and are stored stripped, the other two are taken
as-is.  Following pydantic v2 semantics, every field is checked (in
declaration order) and all violations are aggregated into a single
ValidationError; nothing stops at the first failure. -/

def Payload := List (String × String)

instance : DecidableEq Payload := by
  unfold Payload; infer_instance

def Payload.lookupKey (d : Payload) (k : String) : Option String :=
  List.lookup k d

/-- Dictionary get with empty-string default, as used on the parsed dict. -/
def dictGet (d : Payload) (k : String) : String :=
  (d.lookupKey k).getD ""

structure TransportRequest where
  deliveryNoteNumber : String
  truckLicensePlates : String
  trailerLicensePlates : String
  carrierCountry : String
  carrierTaxCode : String
  carrierFullName : String
  borderCrossing : String
  borderCrossingDate : String
deriving DecidableEq

def validate_non_empty_string (v : String) : Except String String :=
  if v = "" ∨ pyStrip v = "" then .error "Field cannot be empty"
  else .ok (pyStrip v)

/-- The error entries recorded for one validated field: missing, or
rejected by `validate_non_empty_string` (pydantic wraps a ValueError
raised in a validator as "Value error, <message>"). -/
def requiredFieldErrors (d : Payload) (k : String) : List (String × String) :=
  match d.lookupKey k with
  | none => [(k, "Field required")]
  | some v =>
      match validate_non_empty_string v with
      | .error m => [(k, "Value error, " ++ m)]
      | .ok _ => []

/-- The error entries for an unvalidated field: only a missing field is
an error, any present string is accepted. -/
def plainFieldErrors (d : Payload) (k : String) : List (String × String) :=
  match d.lookupKey k with
  | none => [(k, "Field required")]
  | some _ => []

/-- All validation errors of the payload, in field declaration order:
pydantic v2 checks every field and aggregates every violation instead
of stopping at the first failing one. -/
def fieldErrors (d : Payload) : List (String × String) :=
  requiredFieldErrors d "deliveryNoteNumber" ++
  requiredFieldErrors d "truckLicensePlates" ++
  plainFieldErrors d "trailerLicensePlates" ++
  requiredFieldErrors d "carrierCountry" ++
  requiredFieldErrors d "carrierTaxCode" ++
  requiredFieldErrors d "carrierFullName" ++
  requiredFieldErrors d "borderCrossing" ++
  plainFieldErrors d "borderCrossingDate"

/-- The per-violation lines of a rendered ValidationError: for each
entry the field name and its message on their own lines.  (The trailing
metadata pydantic prints per error — input value, documentation link —
is elided.) -/
def renderErrorLines : List (String × String) → String
  | [] => ""
  | e :: rest => "\n" ++ e.1 ++ "\n  " ++ e.2 ++ renderErrorLines rest

/-- A rendered ValidationError: the count header followed by every
violation. -/
def renderValidationError (errs : List (String × String)) : String :=
  Nat.repr errs.length ++
    (if errs.length = 1 then " validation error for TransportRequest"
     else " validation errors for TransportRequest") ++
    renderErrorLines errs

/-- `TransportRequest(**data_dict)`: pydantic v2 validates every field,
aggregating all violations into one ValidationError; construction
succeeds exactly when no field records an error, the six validated
fields being stored stripped. -/
def mkTransportRequest (d : Payload) : Except String TransportRequest :=
  if fieldErrors d = [] then
    .ok { deliveryNoteNumber := pyStrip (dictGet d "deliveryNoteNumber"),
          truckLicensePlates := pyStrip (dictGet d "truckLicensePlates"),
          trailerLicensePlates := dictGet d "trailerLicensePlates",
          carrierCountry := pyStrip (dictGet d "carrierCountry"),
          carrierTaxCode := pyStrip (dictGet d "carrierTaxCode"),
          carrierFullName := pyStrip (dictGet d "carrierFullName"),
          borderCrossing := pyStrip (dictGet d "borderCrossing"),
          borderCrossingDate := dictGet d "borderCrossingDate" }
  else .error (renderValidationError (fieldErrors d))

/-! ### Record store (`save_to_excel`, lines 199–255)

One record per accepted submission, appended to a JSON-list file.
A `none` store is a missing backing file.  `fail` stands for any
exception raised inside the try block of the function (disk failure,
malformed existing file, ...): it is swallowed and reported as
`false`. -/

structure StoredRecord where
  Request_ID : String
  Timestamp : String
  Delivery_Note_Number : String
  Truck_License_Plates : String
  Trailer_License_Plates : String
  Carrier_Country : String
  Carrier_Tax_Code : String
  Carrier_Full_Name : String
  Border_Crossing : String
  Border_Crossing_Date : String
  Has_Attachment : String
deriving DecidableEq

/-- The `row_data` dict built at lines 211–223. -/
def row_data (request_id timestamp : String) (data : Payload)
    (has_attachment : Bool) : StoredRecord :=
  { Request_ID := request_id
    Timestamp := timestamp
    Delivery_Note_Number := dictGet data "deliveryNoteNumber"
    Truck_License_Plates := dictGet data "truckLicensePlates"
    Trailer_License_Plates := dictGet data "trailerLicensePlates"
    Carrier_Country := dictGet data "carrierCountry"
    Carrier_Tax_Code := dictGet data "carrierTaxCode"
    Carrier_Full_Name := dictGet data "carrierFullName"
    Border_Crossing := dictGet data "borderCrossing"
    Border_Crossing_Date := dictGet data "borderCrossingDate"
    Has_Attachment := if has_attachment then "Yes" else "No" }

def save_to_excel (request_id : String) (data : Payload) (has_attachment : Bool)
    (saveTime : DateTime) (saveMicro : Nat) (fail : Bool)
    (store : Option (List StoredRecord)) : Bool × Option (List StoredRecord) :=
  if fail then (false, store)
  else
    let row := row_data request_id (isoformat saveTime saveMicro) data has_attachment
    let existing := store.getD []
    (true, some (existing ++ [row]))

/-! ### The submission handler (`submit_transport_request`, lines 63–197) -/

structure Attachment where
  filename : String
  content : List Nat
deriving DecidableEq

structure FS where
  attachmentsDirExists : Bool
  attachments : List (String × List Nat)
  store : Option (List StoredRecord)
deriving DecidableEq

structure Env where
  now : DateTime
  rand : Nat
  saveTime : DateTime
  saveMicro : Nat
  excelFail : Bool
  elapsedMs : Nat
deriving DecidableEq

/-- The clock and random draw produce values in their documented ranges. -/
def Env.validGen (e : Env) : Prop :=
  e.now.valid ∧ 100 ≤ e.rand ∧ e.rand ≤ 999

instance (e : Env) : Decidable e.validGen := by
  unfold Env.validGen; infer_instance

structure SuccessResponse where
  success : Bool
  request_id : String
  attachment_saved : Bool
  excel_saved : Bool
  processing_time_ms : Nat
  data_received : Payload
deriving DecidableEq

inductive HandlerResult where
  | badRequest (detail : String)
  | ok (resp : SuccessResponse)
deriving DecidableEq

structure LogEvent where
  status : String
  request_id : String
deriving DecidableEq

structure HandlerOutput where
  result : HandlerResult
  fs : FS
  logs : List LogEvent
deriving DecidableEq

/-- The tail of the handler shared by all accepted submissions:
persist the record, then build the success response (lines 172–197). -/
def finishSubmit (e : Env) (data_dict : Payload) (request_id : String)
    (attachment_saved : Bool) (fs : FS) : HandlerOutput :=
  let saved := save_to_excel request_id data_dict attachment_saved
    e.saveTime e.saveMicro e.excelFail fs.store
  { result := .ok { success := true, request_id := request_id,
                    attachment_saved := attachment_saved, excel_saved := saved.1,
                    processing_time_ms := e.elapsedMs, data_received := data_dict }
    fs := { fs with store := saved.2 }
    logs := [{ status := "PROCESSING", request_id := request_id },
             { status := "SUCCESS", request_id := request_id }] }

/-- The `POST /api/submit` handler.  `dataParse` is the outcome of
`json.loads(data)` (`.error` carries the decoder diagnostic). -/
def submit_transport_request (e : Env) (dataParse : Except String Payload)
    (attachment : Option Attachment) (fs : FS) : HandlerOutput :=
  let request_id := requestId e.now e.rand
  match dataParse with
  | .error err =>
      { result := .badRequest ("Invalid JSON: " ++ err)
        fs := fs
        logs := [{ status := "ERROR", request_id := request_id }] }
  | .ok data_dict =>
      match mkTransportRequest data_dict with
      | .error err =>
          { result := .badRequest ("Invalid data: " ++ err)
            fs := fs
            logs := [{ status := "ERROR", request_id := request_id }] }
      | .ok _req =>
          match attachment with
          | some a =>
              if a.filename != "" then
                finishSubmit e data_dict request_id true
                  { fs with attachmentsDirExists := true,
                            attachments := fs.attachments ++
                              [("attachment_" ++ request_id ++ splitextExt a.filename,
                                a.content)] }
              else finishSubmit e data_dict request_id false fs
          | none => finishSubmit e data_dict request_id false fs


/-! ### Validation lemmas -/

theorem pyStrip_empty : pyStrip "" = "" := rfl

theorem validate_ok (v : String) (h : pyStrip v ≠ "") :
    validate_non_empty_string v = .ok (pyStrip v) := by
  unfold validate_non_empty_string
  rw [if_neg]
  rintro (rfl | h2)
  · exact h pyStrip_empty
  · exact h h2

theorem validate_fail (v : String) (h : pyStrip v = "") :
    validate_non_empty_string v = .error "Field cannot be empty" := by
  unfold validate_non_empty_string
  rw [if_pos (Or.inr h)]

theorem requiredFieldErrors_some (d : Payload) (k v : String)
    (hl : d.lookupKey k = some v) :
    requiredFieldErrors d k =
      (match validate_non_empty_string v with
        | .error m => [(k, "Value error, " ++ m)]
        | .ok _ => []) := by
  unfold requiredFieldErrors
  rw [hl]

theorem requiredFieldErrors_ok (d : Payload) (k v : String)
    (hl : d.lookupKey k = some v) (h : pyStrip v ≠ "") :
    requiredFieldErrors d k = [] := by
  rw [requiredFieldErrors_some d k v hl, validate_ok v h]

theorem requiredFieldErrors_blank (d : Payload) (k v : String)
    (hl : d.lookupKey k = some v) (h : pyStrip v = "") :
    requiredFieldErrors d k = [(k, "Value error, " ++ "Field cannot be empty")] := by
  rw [requiredFieldErrors_some d k v hl, validate_fail v h]

theorem plainFieldErrors_ok (d : Payload) (k v : String)
    (hl : d.lookupKey k = some v) : plainFieldErrors d k = [] := by
  unfold plainFieldErrors
  rw [hl]

theorem requiredFieldErrors_nil_inv (d : Payload) (k : String)
    (h : requiredFieldErrors d k = []) :
    ∃ v, d.lookupKey k = some v ∧ pyStrip v ≠ "" := by
  cases hl : d.lookupKey k with
  | none => unfold requiredFieldErrors at h; rw [hl] at h; exact List.noConfusion h
  | some v =>
    by_cases hs : pyStrip v = ""
    · rw [requiredFieldErrors_blank d k v hl hs] at h
      exact List.noConfusion h
    · exact ⟨v, rfl, hs⟩

theorem mkTransportRequest_ok (d : Payload)
    (dnn tlp trl cc ctc cfn bc bcd : String)
    (h1 : d.lookupKey "deliveryNoteNumber" = some dnn)
    (h2 : d.lookupKey "truckLicensePlates" = some tlp)
    (h3 : d.lookupKey "trailerLicensePlates" = some trl)
    (h4 : d.lookupKey "carrierCountry" = some cc)
    (h5 : d.lookupKey "carrierTaxCode" = some ctc)
    (h6 : d.lookupKey "carrierFullName" = some cfn)
    (h7 : d.lookupKey "borderCrossing" = some bc)
    (h8 : d.lookupKey "borderCrossingDate" = some bcd)
    (n1 : pyStrip dnn ≠ "") (n2 : pyStrip tlp ≠ "") (n4 : pyStrip cc ≠ "")
    (n5 : pyStrip ctc ≠ "") (n6 : pyStrip cfn ≠ "") (n7 : pyStrip bc ≠ "") :
    mkTransportRequest d = .ok
      { deliveryNoteNumber := pyStrip dnn, truckLicensePlates := pyStrip tlp,
        trailerLicensePlates := trl, carrierCountry := pyStrip cc,
        carrierTaxCode := pyStrip ctc, carrierFullName := pyStrip cfn,
        borderCrossing := pyStrip bc, borderCrossingDate := bcd } := by
  have he : fieldErrors d = [] := by
    unfold fieldErrors
    rw [requiredFieldErrors_ok d _ dnn h1 n1, requiredFieldErrors_ok d _ tlp h2 n2,
      plainFieldErrors_ok d _ trl h3, requiredFieldErrors_ok d _ cc h4 n4,
      requiredFieldErrors_ok d _ ctc h5 n5, requiredFieldErrors_ok d _ cfn h6 n6,
      requiredFieldErrors_ok d _ bc h7 n7, plainFieldErrors_ok d _ bcd h8]
    rfl
  unfold mkTransportRequest
  rw [if_pos he]
  simp [dictGet, h1, h2, h3, h4, h5, h6, h7, h8]

/-- If construction succeeded, each of the six validated fields was
present with a non-blank (after stripping) value. -/
theorem mk_ok_required (d : Payload) (tr : TransportRequest)
    (h : mkTransportRequest d = .ok tr) :
    (∃ v, d.lookupKey "deliveryNoteNumber" = some v ∧ pyStrip v ≠ "") ∧
    (∃ v, d.lookupKey "truckLicensePlates" = some v ∧ pyStrip v ≠ "") ∧
    (∃ v, d.lookupKey "carrierCountry" = some v ∧ pyStrip v ≠ "") ∧
    (∃ v, d.lookupKey "carrierTaxCode" = some v ∧ pyStrip v ≠ "") ∧
    (∃ v, d.lookupKey "carrierFullName" = some v ∧ pyStrip v ≠ "") ∧
    (∃ v, d.lookupKey "borderCrossing" = some v ∧ pyStrip v ≠ "") := by
  unfold mkTransportRequest at h
  by_cases he : fieldErrors d = []
  · unfold fieldErrors at he
    simp only [List.append_eq_nil] at he
    obtain ⟨⟨⟨⟨⟨⟨⟨q1, q2⟩, q3⟩, q4⟩, q5⟩, q6⟩, q7⟩, q8⟩ := he
    exact ⟨requiredFieldErrors_nil_inv d _ q1, requiredFieldErrors_nil_inv d _ q2,
      requiredFieldErrors_nil_inv d _ q4, requiredFieldErrors_nil_inv d _ q5,
      requiredFieldErrors_nil_inv d _ q6, requiredFieldErrors_nil_inv d _ q7⟩
  · rw [if_neg he] at h
    exact Except.noConfusion h

/-- If any of the six validated fields is present but blank after
stripping, construction fails (with whatever the first failure is). -/
theorem mk_error_of_blank (d : Payload) (k v : String)
    (hk : k ∈ (["deliveryNoteNumber", "truckLicensePlates", "carrierCountry",
      "carrierTaxCode", "carrierFullName", "borderCrossing"] : List String))
    (hl : d.lookupKey k = some v) (hs : pyStrip v = "") :
    ∃ msg, mkTransportRequest d = .error msg := by
  cases hres : mkTransportRequest d with
  | error msg => exact ⟨msg, rfl⟩
  | ok tr =>
    obtain ⟨q1, q2, q4, q5, q6, q7⟩ := mk_ok_required d tr hres
    simp only [List.mem_cons, List.not_mem_nil, or_false] at hk
    rcases hk with rfl | rfl | rfl | rfl | rfl | rfl
    · obtain ⟨w, hw, hnw⟩ := q1
      rw [hl] at hw; injection hw with hw; exact absurd (hw ▸ hs) hnw
    · obtain ⟨w, hw, hnw⟩ := q2
      rw [hl] at hw; injection hw with hw; exact absurd (hw ▸ hs) hnw
    · obtain ⟨w, hw, hnw⟩ := q4
      rw [hl] at hw; injection hw with hw; exact absurd (hw ▸ hs) hnw
    · obtain ⟨w, hw, hnw⟩ := q5
      rw [hl] at hw; injection hw with hw; exact absurd (hw ▸ hs) hnw
    · obtain ⟨w, hw, hnw⟩ := q6
      rw [hl] at hw; injection hw with hw; exact absurd (hw ▸ hs) hnw
    · obtain ⟨w, hw, hnw⟩ := q7
      rw [hl] at hw; injection hw with hw; exact absurd (hw ▸ hs) hnw

/-- Aggregation: every blank required field contributes its own entry
to the collected validation errors, whatever the other fields hold. -/
theorem fieldErrors_mem_of_blank (d : Payload) (k v : String)
    (hk : k ∈ (["deliveryNoteNumber", "truckLicensePlates", "carrierCountry",
      "carrierTaxCode", "carrierFullName", "borderCrossing"] : List String))
    (hl : d.lookupKey k = some v) (hs : pyStrip v = "") :
    (k, "Value error, " ++ "Field cannot be empty") ∈ fieldErrors d := by
  simp only [List.mem_cons, List.not_mem_nil, or_false] at hk
  unfold fieldErrors
  rcases hk with rfl | rfl | rfl | rfl | rfl | rfl <;>
    simp [requiredFieldErrors_blank d _ v hl hs, List.mem_append]

/-- Any collected violation appears verbatim in the rendered error
lines. -/
theorem renderErrorLines_contains (errs : List (String × String))
    (k m : String) (h : (k, m) ∈ errs) :
    ∃ pre post, renderErrorLines errs =
      pre ++ ("\n" ++ k ++ "\n  " ++ m) ++ post := by
  induction errs with
  | nil => cases h
  | cons a rest ih =>
    obtain ⟨a1, a2⟩ := a
    rcases List.mem_cons.mp h with heq | h2
    · injection heq with hk2 hm2
      subst hk2; subst hm2
      exact ⟨"", renderErrorLines rest, rfl⟩
    · obtain ⟨pre, post, hp⟩ := ih h2
      refine ⟨"\n" ++ a1 ++ "\n  " ++ a2 ++ pre, post, ?_⟩
      show "\n" ++ a1 ++ "\n  " ++ a2 ++ renderErrorLines rest = _
      rw [hp]
      simp [String.append_assoc]

/-! ### Handler-level lemmas -/

/-- `attachment and attachment.filename` from line 137. -/
def attachmentOk : Option Attachment → Bool
  | some a => a.filename != ""
  | none => false

/-- The attachment files the handler writes (one when usable, else none). -/
def attachmentWrites (request_id : String) : Option Attachment → List (String × List Nat)
  | some a =>
      if a.filename != "" then
        [("attachment_" ++ request_id ++ splitextExt a.filename, a.content)]
      else []
  | none => []

theorem submit_json_error_eq (e : Env) (err : String) (att : Option Attachment)
    (fs : FS) :
    submit_transport_request e (.error err) att fs =
      { result := .badRequest ("Invalid JSON: " ++ err)
        fs := fs
        logs := [{ status := "ERROR", request_id := requestId e.now e.rand }] } := rfl

theorem submit_invalid_eq (e : Env) (d : Payload) (att : Option Attachment)
    (fs : FS) (msg : String) (hmk : mkTransportRequest d = .error msg) :
    submit_transport_request e (.ok d) att fs =
      { result := .badRequest ("Invalid data: " ++ msg)
        fs := fs
        logs := [{ status := "ERROR", request_id := requestId e.now e.rand }] } := by
  simp only [submit_transport_request, hmk]

/-- Full description of an accepted submission as one equation. -/
theorem submit_ok_eq (e : Env) (d : Payload) (tr : TransportRequest)
    (att : Option Attachment) (fs : FS) (hmk : mkTransportRequest d = .ok tr) :
    submit_transport_request e (.ok d) att fs =
      { result := .ok
          { success := true,
            request_id := requestId e.now e.rand,
            attachment_saved := attachmentOk att,
            excel_saved := !e.excelFail,
            processing_time_ms := e.elapsedMs,
            data_received := d },
        fs := { attachmentsDirExists := fs.attachmentsDirExists || attachmentOk att,
                attachments := fs.attachments ++ attachmentWrites (requestId e.now e.rand) att,
                store := if e.excelFail then fs.store
                  else some (fs.store.getD [] ++
                    [row_data (requestId e.now e.rand)
                      (isoformat e.saveTime e.saveMicro) d (attachmentOk att)]) },
        logs := [{ status := "PROCESSING", request_id := requestId e.now e.rand },
                 { status := "SUCCESS", request_id := requestId e.now e.rand }] } := by
  simp only [submit_transport_request, hmk]
  cases att with
  | none =>
    cases hf : e.excelFail <;>
      simp [finishSubmit, save_to_excel, attachmentOk, attachmentWrites, hf]
  | some a =>
    by_cases ha : a.filename = ""
    · cases hf : e.excelFail <;>
        simp [finishSubmit, save_to_excel, attachmentOk, attachmentWrites, ha, hf]
    · have hb : (a.filename != "") = true := by simp [bne_iff_ne, ha]
      cases hf : e.excelFail <;>
        simp [finishSubmit, save_to_excel, attachmentOk, attachmentWrites, ha, hf, hb]

/-! ### Concrete values used by the evaluation theorems -/

def sampleTime : DateTime :=
  { year := 2025, month := 10, day := 12, hour := 9, minute := 30, second := 0 }

def sampleTime2 : DateTime :=
  { year := 2025, month := 10, day := 12, hour := 9, minute := 30, second := 1 }

def sampleEnv : Env :=
  { now := sampleTime, rand := 123, saveTime := sampleTime, saveMicro := 0,
    excelFail := false, elapsedMs := 5 }

def sampleEnv2 : Env :=
  { now := sampleTime2, rand := 456, saveTime := sampleTime2, saveMicro := 250,
    excelFail := false, elapsedMs := 7 }

def sampleEnvFail : Env :=
  { now := sampleTime, rand := 123, saveTime := sampleTime, saveMicro := 0,
    excelFail := true, elapsedMs := 5 }

def samplePayload : Payload :=
  [("deliveryNoteNumber", "INT-TEST-001"), ("truckLicensePlates", "IT123AB"),
   ("trailerLicensePlates", "IT456CD"), ("carrierCountry", "Italy"),
   ("carrierTaxCode", "IT12345678901"), ("carrierFullName", "Integration Test Transport"),
   ("borderCrossing", "Nadlac"), ("borderCrossingDate", "2025-10-30")]

def sampleTR : TransportRequest :=
  { deliveryNoteNumber := "INT-TEST-001", truckLicensePlates := "IT123AB",
    trailerLicensePlates := "IT456CD", carrierCountry := "Italy",
    carrierTaxCode := "IT12345678901", carrierFullName := "Integration Test Transport",
    borderCrossing := "Nadlac", borderCrossingDate := "2025-10-30" }

def blankPayload : Payload :=
  [("deliveryNoteNumber", "   "), ("truckLicensePlates", "IT123AB"),
   ("trailerLicensePlates", "IT456CD"), ("carrierCountry", "Italy"),
   ("carrierTaxCode", "IT12345678901"), ("carrierFullName", "Integration Test Transport"),
   ("borderCrossing", "Nadlac"), ("borderCrossingDate", "2025-10-30")]

def doubleBlankPayload : Payload :=
  [("deliveryNoteNumber", "   "), ("truckLicensePlates", " "),
   ("trailerLicensePlates", "IT456CD"), ("carrierCountry", "Italy"),
   ("carrierTaxCode", "IT12345678901"), ("carrierFullName", "Integration Test Transport"),
   ("borderCrossing", "Nadlac"), ("borderCrossingDate", "2025-10-30")]

def paddedPayload : Payload :=
  [("deliveryNoteNumber", " X "), ("truckLicensePlates", "IT123AB"),
   ("trailerLicensePlates", "IT456CD"), ("carrierCountry", "Italy"),
   ("carrierTaxCode", "IT12345678901"), ("carrierFullName", "Integration Test Transport"),
   ("borderCrossing", "Nadlac"), ("borderCrossingDate", "2025-10-30")]

def sampleAttachment : Attachment :=
  { filename := "integration_test.pdf", content := [37, 80, 68, 70, 45, 49] }

def emptyFS : FS :=
  { attachmentsDirExists := false, attachments := [], store := none }

deriving instance DecidableEq for Except


/-! ### Claim theorems -/

/-- C1 counterexample: the claim says validation stops at the first
violating field, which would make the 400 detail a function of that
first field alone.  These two payloads share the same first violating
field (`deliveryNoteNumber`, blank) and differ only in whether
`truckLicensePlates` is also blank, yet the handler answers with
different details: pydantic v2 aggregates, and the second detail names
`truckLicensePlates` as well. -/
theorem claim_C1_counterexample :
    (submit_transport_request sampleEnv (.ok doubleBlankPayload) none emptyFS).result ≠
      (submit_transport_request sampleEnv (.ok blankPayload) none emptyFS).result ∧
    (submit_transport_request sampleEnv (.ok blankPayload) none emptyFS).result =
      .badRequest ("Invalid data: " ++ renderValidationError
        [("deliveryNoteNumber", "Value error, Field cannot be empty")]) ∧
    (submit_transport_request sampleEnv (.ok doubleBlankPayload) none emptyFS).result =
      .badRequest ("Invalid data: " ++ renderValidationError
        [("deliveryNoteNumber", "Value error, Field cannot be empty"),
         ("truckLicensePlates", "Value error, Field cannot be empty")]) := by
  refine ⟨by decide, by decide, by decide⟩

/-- C1 (amended): for a submission whose `data` parses as JSON but in
which any of the six required fields (`deliveryNoteNumber`,
`truckLicensePlates`, `carrierCountry`, `carrierTaxCode`,
`carrierFullName`, `borderCrossing`) is blank after stripping
whitespace, the handler answers HTTP 400 with a detail containing
"Invalid data"; the detail aggregates the violations, naming every
blank required field (pydantic v2 collects all field errors into one
ValidationError instead of stopping at the first); and
`trailerLicensePlates` and `borderCrossingDate` are accepted with any
string value. -/
theorem claim_C1_required_field_validation (e : Env) (att : Option Attachment)
    (fs : FS) (d : Payload) :
    (∀ k v, k ∈ (["deliveryNoteNumber", "truckLicensePlates", "carrierCountry",
        "carrierTaxCode", "carrierFullName", "borderCrossing"] : List String) →
      d.lookupKey k = some v → pyStrip v = "" →
      ∃ msg, (submit_transport_request e (.ok d) att fs).result =
        .badRequest ("Invalid data: " ++ msg)) ∧
    (∀ k v, k ∈ (["deliveryNoteNumber", "truckLicensePlates", "carrierCountry",
        "carrierTaxCode", "carrierFullName", "borderCrossing"] : List String) →
      d.lookupKey k = some v → pyStrip v = "" →
      ∃ pre post, (submit_transport_request e (.ok d) att fs).result =
        .badRequest (pre ++
          ("\n" ++ k ++ "\n  " ++ "Value error, Field cannot be empty") ++ post)) ∧
    (∀ dnn tlp trl cc ctc cfn bc bcd,
      d.lookupKey "deliveryNoteNumber" = some dnn →
      d.lookupKey "truckLicensePlates" = some tlp →
      d.lookupKey "trailerLicensePlates" = some trl →
      d.lookupKey "carrierCountry" = some cc →
      d.lookupKey "carrierTaxCode" = some ctc →
      d.lookupKey "carrierFullName" = some cfn →
      d.lookupKey "borderCrossing" = some bc →
      d.lookupKey "borderCrossingDate" = some bcd →
      pyStrip dnn ≠ "" → pyStrip tlp ≠ "" → pyStrip cc ≠ "" →
      pyStrip ctc ≠ "" → pyStrip cfn ≠ "" → pyStrip bc ≠ "" →
      ∃ resp, (submit_transport_request e (.ok d) att fs).result = .ok resp ∧
        resp.success = true) := by
  refine ⟨?_, ?_, ?_⟩
  · intro k v hk hl hs
    obtain ⟨msg, hmsg⟩ := mk_error_of_blank d k v hk hl hs
    exact ⟨msg, by rw [submit_invalid_eq e d att fs msg hmsg]⟩
  · intro k v hk hl hs
    have hmem : (k, "Value error, Field cannot be empty") ∈ fieldErrors d :=
      fieldErrors_mem_of_blank d k v hk hl hs
    have hcons : fieldErrors d ≠ [] := by
      intro h0
      rw [h0] at hmem
      cases hmem
    have hmk : mkTransportRequest d =
        .error (renderValidationError (fieldErrors d)) := by
      unfold mkTransportRequest
      rw [if_neg hcons]
    obtain ⟨pre, post, hp⟩ := renderErrorLines_contains (fieldErrors d) k
      "Value error, Field cannot be empty" hmem
    refine ⟨"Invalid data: " ++ Nat.repr (fieldErrors d).length ++
      (if (fieldErrors d).length = 1 then " validation error for TransportRequest"
       else " validation errors for TransportRequest") ++ pre, post, ?_⟩
    rw [submit_invalid_eq e d att fs _ hmk]
    simp only [renderValidationError]
    rw [hp]
    simp [String.append_assoc]
  · intro dnn tlp trl cc ctc cfn bc bcd h1 h2 h3 h4 h5 h6 h7 h8 n1 n2 n4 n5 n6 n7
    have hmk := mkTransportRequest_ok d dnn tlp trl cc ctc cfn bc bcd
      h1 h2 h3 h4 h5 h6 h7 h8 n1 n2 n4 n5 n6 n7
    rw [submit_ok_eq e d _ att fs hmk]
    exact ⟨_, rfl, rfl⟩

theorem claim_C1_required_field_validation_witness :
    (∃ msg, (submit_transport_request sampleEnv (.ok blankPayload) none emptyFS).result =
      .badRequest ("Invalid data: " ++ msg)) ∧
    (∃ pre post,
      (submit_transport_request sampleEnv (.ok blankPayload) none emptyFS).result =
        .badRequest (pre ++ ("\n" ++ "deliveryNoteNumber" ++ "\n  " ++
          "Value error, Field cannot be empty") ++ post)) ∧
    (∃ resp,
      (submit_transport_request sampleEnv (.ok samplePayload) none emptyFS).result =
        .ok resp ∧ resp.success = true) :=
  ⟨(claim_C1_required_field_validation sampleEnv none emptyFS blankPayload).1
      "deliveryNoteNumber" "   " (by decide) (by decide) (by decide),
   (claim_C1_required_field_validation sampleEnv none emptyFS blankPayload).2.1
      "deliveryNoteNumber" "   " (by decide) (by decide) (by decide),
   (claim_C1_required_field_validation sampleEnv none emptyFS samplePayload).2.2
      "INT-TEST-001" "IT123AB" "IT456CD" "Italy" "IT12345678901"
      "Integration Test Transport" "Nadlac" "2025-10-30"
      (by decide) (by decide) (by decide) (by decide) (by decide) (by decide)
      (by decide) (by decide) (by decide) (by decide) (by decide) (by decide)
      (by decide) (by decide)⟩

/-- C2: a submission whose `data` form field fails JSON parsing is
answered with HTTP 400, the detail being "Invalid JSON: " followed by
the parser diagnostic, and the file system is untouched. -/
theorem claim_C2_invalid_json (e : Env) (err : String) (att : Option Attachment)
    (fs : FS) :
    (submit_transport_request e (.error err) att fs).result =
      .badRequest ("Invalid JSON: " ++ err) ∧
    (submit_transport_request e (.error err) att fs).fs = fs :=
  ⟨rfl, rfl⟩

/-- C3: when validation passed, a failure inside the record-store append
is swallowed: the handler still returns a success response with
`success: true`, reporting the failure only as `excel_saved: false`;
the store is left as it was, and any attachment file written earlier in
the request is kept (no rollback). -/
theorem claim_C3_store_failure_swallowed (e : Env) (d : Payload)
    (tr : TransportRequest) (att : Option Attachment) (fs : FS)
    (hmk : mkTransportRequest d = .ok tr) (hf : e.excelFail = true) :
    (∃ resp, (submit_transport_request e (.ok d) att fs).result = .ok resp ∧
      resp.success = true ∧ resp.excel_saved = false) ∧
    (submit_transport_request e (.ok d) att fs).fs.store = fs.store ∧
    (submit_transport_request e (.ok d) att fs).fs.attachments =
      fs.attachments ++ attachmentWrites (requestId e.now e.rand) att := by
  rw [submit_ok_eq e d tr att fs hmk]
  exact ⟨⟨_, rfl, rfl, by simp [hf]⟩, by simp [hf], rfl⟩

theorem claim_C3_store_failure_swallowed_witness :
    (∃ resp,
      (submit_transport_request sampleEnvFail (.ok samplePayload)
        (some sampleAttachment) emptyFS).result = .ok resp ∧
      resp.success = true ∧ resp.excel_saved = false) ∧
    (submit_transport_request sampleEnvFail (.ok samplePayload)
      (some sampleAttachment) emptyFS).fs.store = emptyFS.store ∧
    (submit_transport_request sampleEnvFail (.ok samplePayload)
      (some sampleAttachment) emptyFS).fs.attachments =
      emptyFS.attachments ++
        attachmentWrites (requestId sampleEnvFail.now sampleEnvFail.rand)
          (some sampleAttachment) :=
  claim_C3_store_failure_swallowed sampleEnvFail samplePayload sampleTR
    (some sampleAttachment) emptyFS (by decide) (by decide)

/-- C4: the record-store append treats a missing backing file as the
empty sequence and, whenever it reports success, the new store content
is exactly the previous records unchanged with the single new record
appended at the end (records are never updated or deleted). -/
theorem claim_C4_store_append (rid : String) (d : Payload) (hatt : Bool)
    (t : DateTime) (mi : Nat) (fail : Bool)
    (store store' : Option (List StoredRecord)) (saved : Bool)
    (h : save_to_excel rid d hatt t mi fail store = (saved, store'))
    (hok : saved = true) :
    store' = some (store.getD [] ++ [row_data rid (isoformat t mi) d hatt]) ∧
    (store = none → store' = some [row_data rid (isoformat t mi) d hatt]) ∧
    (∀ l, store = some l → ∃ l', store' = some l' ∧
      l'.length = l.length + 1 ∧ l'.take l.length = l ∧
      l'.getLast? = some (row_data rid (isoformat t mi) d hatt)) := by
  subst hok
  unfold save_to_excel at h
  cases hf : fail with
  | true => rw [hf] at h; injection h with h1 h2; exact absurd h1.symm (by simp)
  | false =>
    rw [hf] at h
    simp only [if_false, Bool.false_eq_true] at h
    injection h with h1 h2
    refine ⟨h2.symm, ?_, ?_⟩
    · intro hn; rw [h2.symm, hn]; rfl
    · intro l hl
      refine ⟨l ++ [row_data rid (isoformat t mi) d hatt],
        by rw [h2.symm, hl]; rfl, ?_, ?_, ?_⟩
      · simp
      · exact List.take_left l _
      · simp

theorem claim_C4_store_append_witness :
    (let r := save_to_excel "REQ-X" samplePayload false sampleTime 0 false
        (some [row_data "REQ-W" (isoformat sampleTime 0) samplePayload false])
     r.2 = some ([row_data "REQ-W" (isoformat sampleTime 0) samplePayload false] ++
        [row_data "REQ-X" (isoformat sampleTime 0) samplePayload false]) ∧
      ((some [row_data "REQ-W" (isoformat sampleTime 0) samplePayload false] :
          Option (List StoredRecord)) = none →
        r.2 = some [row_data "REQ-X" (isoformat sampleTime 0) samplePayload false]) ∧
      (∀ l, (some [row_data "REQ-W" (isoformat sampleTime 0) samplePayload false] :
          Option (List StoredRecord)) = some l →
        ∃ l', r.2 = some l' ∧ l'.length = l.length + 1 ∧ l'.take l.length = l ∧
          l'.getLast? = some (row_data "REQ-X" (isoformat sampleTime 0) samplePayload false))) :=
  claim_C4_store_append "REQ-X" samplePayload false sampleTime 0 false
    (some [row_data "REQ-W" (isoformat sampleTime 0) samplePayload false]) _ _ rfl rfl

/-- C5: with an attachment whose client filename is non-empty, the
written file holds exactly the uploaded bytes under the name
`attachment_<request id><original extension>`, the attachments
directory exists afterwards, and the response reports
`attachment_saved: true`; with no attachment nothing is written and the
response reports `attachment_saved: false`. -/
theorem claim_C5_attachment_roundtrip (e : Env) (d : Payload)
    (tr : TransportRequest) (fs : FS) (hmk : mkTransportRequest d = .ok tr) :
    (∀ a : Attachment, a.filename ≠ "" →
      (submit_transport_request e (.ok d) (some a) fs).fs.attachments =
        fs.attachments ++
          [("attachment_" ++ requestId e.now e.rand ++ splitextExt a.filename,
            a.content)] ∧
      (submit_transport_request e (.ok d) (some a) fs).fs.attachmentsDirExists = true ∧
      (∃ resp, (submit_transport_request e (.ok d) (some a) fs).result = .ok resp ∧
        resp.attachment_saved = true)) ∧
    ((submit_transport_request e (.ok d) none fs).fs.attachments = fs.attachments ∧
      (∃ resp, (submit_transport_request e (.ok d) none fs).result = .ok resp ∧
        resp.attachment_saved = false)) := by
  constructor
  · intro a ha
    have hb : (a.filename != "") = true := by simp [bne_iff_ne, ha]
    rw [submit_ok_eq e d tr (some a) fs hmk]
    refine ⟨by simp [attachmentWrites, hb], by simp [attachmentOk, hb], ?_⟩
    exact ⟨_, rfl, by simp [attachmentOk, hb]⟩
  · rw [submit_ok_eq e d tr none fs hmk]
    exact ⟨by simp [attachmentWrites], ⟨_, rfl, rfl⟩⟩

theorem claim_C5_attachment_roundtrip_witness :
    ((submit_transport_request sampleEnv (.ok samplePayload) (some sampleAttachment)
        emptyFS).fs.attachments =
      emptyFS.attachments ++
        [("attachment_" ++ requestId sampleEnv.now sampleEnv.rand ++
            splitextExt sampleAttachment.filename, sampleAttachment.content)] ∧
      (submit_transport_request sampleEnv (.ok samplePayload) (some sampleAttachment)
        emptyFS).fs.attachmentsDirExists = true ∧
      (∃ resp, (submit_transport_request sampleEnv (.ok samplePayload)
          (some sampleAttachment) emptyFS).result = .ok resp ∧
        resp.attachment_saved = true)) ∧
    ((submit_transport_request sampleEnv (.ok samplePayload) none emptyFS).fs.attachments =
        emptyFS.attachments ∧
      (∃ resp, (submit_transport_request sampleEnv (.ok samplePayload) none
          emptyFS).result = .ok resp ∧ resp.attachment_saved = false)) :=
  ⟨(claim_C5_attachment_roundtrip sampleEnv samplePayload sampleTR emptyFS
      (by decide)).1 sampleAttachment (by decide),
   (claim_C5_attachment_roundtrip sampleEnv samplePayload sampleTR emptyFS
      (by decide)).2⟩

/-- C10: an attachment part whose client-supplied filename is the empty
string behaves exactly like an absent attachment: the whole handler
output is identical, so no file is written, the response reports
`attachment_saved: false`, and the record stored for the submission has
`Has_Attachment = "No"`. -/
theorem claim_C10_empty_filename (e : Env) (p : Except String Payload)
    (c : List Nat) (fs : FS) :
    submit_transport_request e p (some { filename := "", content := c }) fs =
      submit_transport_request e p none fs ∧
    (∀ d tr, p = .ok d → mkTransportRequest d = .ok tr → e.excelFail = false →
      (submit_transport_request e p (some { filename := "", content := c }) fs).fs.attachments =
        fs.attachments ∧
      (∃ resp, (submit_transport_request e p (some { filename := "", content := c })
          fs).result = .ok resp ∧ resp.attachment_saved = false) ∧
      (∃ l, (submit_transport_request e p (some { filename := "", content := c })
          fs).fs.store = some l ∧
        l.getLast? = some (row_data (requestId e.now e.rand)
          (isoformat e.saveTime e.saveMicro) d false) ∧
        (row_data (requestId e.now e.rand) (isoformat e.saveTime e.saveMicro) d
          false).Has_Attachment = "No")) := by
  constructor
  · cases p with
    | error err => rfl
    | ok d =>
      cases hmk : mkTransportRequest d with
      | error msg =>
        rw [submit_invalid_eq e d _ fs msg hmk, submit_invalid_eq e d none fs msg hmk]
      | ok tr =>
        rw [submit_ok_eq e d tr _ fs hmk, submit_ok_eq e d tr none fs hmk]
        simp [attachmentOk, attachmentWrites]
  · intro d tr hp hmk hf
    subst hp
    rw [submit_ok_eq e d tr _ fs hmk]
    refine ⟨by simp [attachmentWrites], ⟨_, rfl, by simp [attachmentOk]⟩, ?_⟩
    refine ⟨fs.store.getD [] ++ [row_data (requestId e.now e.rand)
      (isoformat e.saveTime e.saveMicro) d false], ?_, by simp, rfl⟩
    simp [hf, attachmentOk]

theorem claim_C10_empty_filename_witness :
    ((submit_transport_request sampleEnv (.ok samplePayload)
        (some { filename := "", content := [1, 2, 3] }) emptyFS).fs.attachments =
      emptyFS.attachments ∧
    (∃ resp, (submit_transport_request sampleEnv (.ok samplePayload)
        (some { filename := "", content := [1, 2, 3] }) emptyFS).result = .ok resp ∧
      resp.attachment_saved = false) ∧
    (∃ l, (submit_transport_request sampleEnv (.ok samplePayload)
        (some { filename := "", content := [1, 2, 3] }) emptyFS).fs.store = some l ∧
      l.getLast? = some (row_data (requestId sampleEnv.now sampleEnv.rand)
        (isoformat sampleEnv.saveTime sampleEnv.saveMicro) samplePayload false) ∧
      (row_data (requestId sampleEnv.now sampleEnv.rand)
        (isoformat sampleEnv.saveTime sampleEnv.saveMicro) samplePayload
        false).Has_Attachment = "No")) :=
  (claim_C10_empty_filename sampleEnv (.ok samplePayload) [1, 2, 3] emptyFS).2
    samplePayload sampleTR rfl (by decide) (by decide)

theorem requestId_data_drop20 (t : DateTime) (r : Nat) (h1 : 100 ≤ r) (h2 : r ≤ 999) :
    (requestId t r).data.drop 20 = (Nat.repr r).data := by
  rw [requestId_data t r h1 h2, repr_eq_pad3 r h1 h2]
  have hgrp : ('R' :: 'E' :: 'Q' :: '-' ::
      (((pad 4 t.year).data ++ (pad 2 t.month).data ++ (pad 2 t.day).data) ++
        '-' :: (((pad 2 t.hour).data ++ (pad 2 t.minute).data ++ (pad 2 t.second).data) ++
          '-' :: (pad 3 r).data)) : List Char) =
      (['R', 'E', 'Q', '-'] ++
        ((pad 4 t.year).data ++ (pad 2 t.month).data ++ (pad 2 t.day).data) ++ ['-'] ++
        ((pad 2 t.hour).data ++ (pad 2 t.minute).data ++ (pad 2 t.second).data) ++ ['-']) ++
        (pad 3 r).data := by
    simp [List.append_assoc, List.cons_append, List.singleton_append]
  rw [hgrp]
  exact List.drop_left' (by simp [List.length_append, pad_data_length, pad_length])

/-- C6: two sequential accepted submissions starting from an empty
record store leave exactly two entries; each is retrievable by its
`Request_ID` and carries the ISO timestamp of its store write, every
input payload field under its snake-case-with-capitals name, and
`Has_Attachment` equal to "Yes" or "No". -/
theorem claim_C6_two_sequential_submissions
    (e₁ e₂ : Env) (d₁ d₂ : Payload) (tr₁ tr₂ : TransportRequest)
    (att₁ att₂ : Option Attachment) (fs : FS)
    (hst : fs.store = none)
    (hmk₁ : mkTransportRequest d₁ = .ok tr₁)
    (hmk₂ : mkTransportRequest d₂ = .ok tr₂)
    (hf₁ : e₁.excelFail = false) (hf₂ : e₂.excelFail = false)
    (hne : requestId e₁.now e₁.rand ≠ requestId e₂.now e₂.rand) :
    ∃ r₁ r₂,
      (submit_transport_request e₂ (.ok d₂) att₂
        (submit_transport_request e₁ (.ok d₁) att₁ fs).fs).fs.store = some [r₁, r₂] ∧
      [r₁, r₂].find? (fun r => r.Request_ID == requestId e₁.now e₁.rand) = some r₁ ∧
      [r₁, r₂].find? (fun r => r.Request_ID == requestId e₂.now e₂.rand) = some r₂ ∧
      r₁.Request_ID = requestId e₁.now e₁.rand ∧
      r₂.Request_ID = requestId e₂.now e₂.rand ∧
      r₁.Timestamp = isoformat e₁.saveTime e₁.saveMicro ∧
      r₂.Timestamp = isoformat e₂.saveTime e₂.saveMicro ∧
      (r₁.Has_Attachment = "Yes" ∨ r₁.Has_Attachment = "No") ∧
      (r₂.Has_Attachment = "Yes" ∨ r₂.Has_Attachment = "No") ∧
      (∀ v, d₁.lookupKey "deliveryNoteNumber" = some v → r₁.Delivery_Note_Number = v) ∧
      (∀ v, d₁.lookupKey "truckLicensePlates" = some v → r₁.Truck_License_Plates = v) ∧
      (∀ v, d₁.lookupKey "trailerLicensePlates" = some v → r₁.Trailer_License_Plates = v) ∧
      (∀ v, d₁.lookupKey "carrierCountry" = some v → r₁.Carrier_Country = v) ∧
      (∀ v, d₁.lookupKey "carrierTaxCode" = some v → r₁.Carrier_Tax_Code = v) ∧
      (∀ v, d₁.lookupKey "carrierFullName" = some v → r₁.Carrier_Full_Name = v) ∧
      (∀ v, d₁.lookupKey "borderCrossing" = some v → r₁.Border_Crossing = v) ∧
      (∀ v, d₁.lookupKey "borderCrossingDate" = some v → r₁.Border_Crossing_Date = v) ∧
      (∀ v, d₂.lookupKey "deliveryNoteNumber" = some v → r₂.Delivery_Note_Number = v) ∧
      (∀ v, d₂.lookupKey "truckLicensePlates" = some v → r₂.Truck_License_Plates = v) ∧
      (∀ v, d₂.lookupKey "trailerLicensePlates" = some v → r₂.Trailer_License_Plates = v) ∧
      (∀ v, d₂.lookupKey "carrierCountry" = some v → r₂.Carrier_Country = v) ∧
      (∀ v, d₂.lookupKey "carrierTaxCode" = some v → r₂.Carrier_Tax_Code = v) ∧
      (∀ v, d₂.lookupKey "carrierFullName" = some v → r₂.Carrier_Full_Name = v) ∧
      (∀ v, d₂.lookupKey "borderCrossing" = some v → r₂.Border_Crossing = v) ∧
      (∀ v, d₂.lookupKey "borderCrossingDate" = some v → r₂.Border_Crossing_Date = v) := by
  have hs₁ : (submit_transport_request e₁ (.ok d₁) att₁ fs).fs.store =
      some [row_data (requestId e₁.now e₁.rand) (isoformat e₁.saveTime e₁.saveMicro)
        d₁ (attachmentOk att₁)] := by
    rw [submit_ok_eq e₁ d₁ tr₁ att₁ fs hmk₁]
    simp [hf₁, hst]
  have hs₂ : (submit_transport_request e₂ (.ok d₂) att₂
      (submit_transport_request e₁ (.ok d₁) att₁ fs).fs).fs.store =
      some [row_data (requestId e₁.now e₁.rand) (isoformat e₁.saveTime e₁.saveMicro)
          d₁ (attachmentOk att₁),
        row_data (requestId e₂.now e₂.rand) (isoformat e₂.saveTime e₂.saveMicro)
          d₂ (attachmentOk att₂)] := by
    rw [submit_ok_eq e₂ d₂ tr₂ att₂ _ hmk₂]
    simp [hf₂, hs₁]
  have hbne : (requestId e₁.now e₁.rand == requestId e₂.now e₂.rand) = false :=
    beq_eq_false_iff_ne.mpr hne
  refine ⟨_, _, hs₂, ?_, ?_, rfl, rfl, rfl, rfl, ?_, ?_,
    fun v hv => by simp [row_data, dictGet, hv],
    fun v hv => by simp [row_data, dictGet, hv],
    fun v hv => by simp [row_data, dictGet, hv],
    fun v hv => by simp [row_data, dictGet, hv],
    fun v hv => by simp [row_data, dictGet, hv],
    fun v hv => by simp [row_data, dictGet, hv],
    fun v hv => by simp [row_data, dictGet, hv],
    fun v hv => by simp [row_data, dictGet, hv],
    fun v hv => by simp [row_data, dictGet, hv],
    fun v hv => by simp [row_data, dictGet, hv],
    fun v hv => by simp [row_data, dictGet, hv],
    fun v hv => by simp [row_data, dictGet, hv],
    fun v hv => by simp [row_data, dictGet, hv],
    fun v hv => by simp [row_data, dictGet, hv],
    fun v hv => by simp [row_data, dictGet, hv],
    fun v hv => by simp [row_data, dictGet, hv]⟩
  · simp [List.find?, row_data]
  · simp [List.find?, row_data, hbne]
  · cases h : attachmentOk att₁ <;> simp [row_data, h]
  · cases h : attachmentOk att₂ <;> simp [row_data, h]

theorem claim_C6_two_sequential_submissions_witness :
    ∃ r₁ r₂,
      (submit_transport_request sampleEnv2 (.ok samplePayload) none
        (submit_transport_request sampleEnv (.ok samplePayload) none emptyFS).fs).fs.store =
        some [r₁, r₂] ∧
      [r₁, r₂].find? (fun r => r.Request_ID == requestId sampleEnv.now sampleEnv.rand) =
        some r₁ ∧
      [r₁, r₂].find? (fun r => r.Request_ID == requestId sampleEnv2.now sampleEnv2.rand) =
        some r₂ ∧
      r₁.Delivery_Note_Number = "INT-TEST-001" := by
  obtain ⟨r₁, r₂, hstore, hq₁, hq₂, -, -, -, -, -, -, hdnn, -⟩ :=
    claim_C6_two_sequential_submissions sampleEnv sampleEnv2 samplePayload samplePayload
      sampleTR sampleTR none none emptyFS rfl (by decide) (by decide) rfl rfl (by decide)
  exact ⟨r₁, r₂, hstore, hq₁, hq₂, hdnn "INT-TEST-001" (by decide)⟩

/-- C7: an accepted submission returns a success response whose
`request_id` is `REQ-` followed by the current date `YYYYMMDD`, the
current time `HHMMSS` and the three-digit random draw from
`[100, 999]`, matching `REQ-\d{8}-\d{6}-\d{3}`; the identifier is
generated before parsing and validation, as both failure paths log an
event carrying the same identifier. -/
theorem claim_C7_request_id_format (e : Env) (d : Payload) (tr : TransportRequest)
    (att : Option Attachment) (fs : FS)
    (hg : e.validGen) (hmk : mkTransportRequest d = .ok tr) :
    (∃ resp, (submit_transport_request e (.ok d) att fs).result = .ok resp ∧
      resp.success = true ∧
      resp.request_id = requestId e.now e.rand ∧
      matchesReqIdPattern resp.request_id = true ∧
      resp.request_id.data.drop 20 = (Nat.repr e.rand).data ∧
      100 ≤ e.rand ∧ e.rand ≤ 999 ∧
      resp.request_id = "REQ-" ++ strftimeCompact e.now ++ "-" ++ Nat.repr e.rand) ∧
    (∀ err, (submit_transport_request e (.error err) att fs).logs =
      [{ status := "ERROR", request_id := requestId e.now e.rand }]) ∧
    (∀ d' msg, mkTransportRequest d' = .error msg →
      (submit_transport_request e (.ok d') att fs).logs =
        [{ status := "ERROR", request_id := requestId e.now e.rand }]) := by
  obtain ⟨-, hr1, hr2⟩ := hg
  refine ⟨?_, ?_, ?_⟩
  · rw [submit_ok_eq e d tr att fs hmk]
    exact ⟨_, rfl, rfl, rfl, requestId_matches e.now e.rand hr1 hr2,
      requestId_data_drop20 e.now e.rand hr1 hr2, hr1, hr2, rfl⟩
  · intro err; rfl
  · intro d' msg hmk'
    rw [submit_invalid_eq e d' att fs msg hmk']

theorem claim_C7_request_id_format_witness :
    ∃ resp, (submit_transport_request sampleEnv (.ok samplePayload) none
        emptyFS).result = .ok resp ∧
      resp.success = true ∧
      resp.request_id = requestId sampleEnv.now sampleEnv.rand ∧
      matchesReqIdPattern resp.request_id = true ∧
      resp.request_id.data.drop 20 = (Nat.repr sampleEnv.rand).data ∧
      100 ≤ sampleEnv.rand ∧ sampleEnv.rand ≤ 999 ∧
      resp.request_id = "REQ-" ++ strftimeCompact sampleEnv.now ++ "-" ++
        Nat.repr sampleEnv.rand :=
  (claim_C7_request_id_format sampleEnv samplePayload sampleTR none emptyFS
    (by decide) (by decide)).1

/-- C8 counterexample: the claim says `data_received` echoes the
*validated* input, i.e. the six required fields whitespace-trimmed.  On
the payload whose `deliveryNoteNumber` is `" X "` validation succeeds
and produces the trimmed `"X"`, yet `data_received` in the response
still carries the raw `" X "`: the handler echoes the parsed payload,
not the validated model. -/
theorem claim_C8_counterexample :
    mkTransportRequest paddedPayload = .ok
      { deliveryNoteNumber := "X", truckLicensePlates := "IT123AB",
        trailerLicensePlates := "IT456CD", carrierCountry := "Italy",
        carrierTaxCode := "IT12345678901",
        carrierFullName := "Integration Test Transport",
        borderCrossing := "Nadlac", borderCrossingDate := "2025-10-30" } ∧
    (submit_transport_request sampleEnv (.ok paddedPayload) none emptyFS).result =
      .ok { success := true, request_id := requestId sampleEnv.now sampleEnv.rand,
            attachment_saved := false, excel_saved := true,
            processing_time_ms := 5, data_received := paddedPayload } ∧
    Payload.lookupKey paddedPayload "deliveryNoteNumber" = some " X " ∧
    (" X " : String) ≠ "X" := by
  decide

/-- C8 (amended): the response of every accepted submission consists of
exactly the fields `success`, `request_id`, `attachment_saved`,
`excel_saved`, `processing_time_ms` and `data_received`, where
`data_received` is an echo of the payload as parsed from the `data`
field (raw values, not the trimmed ones of the validated model). -/
theorem claim_C8_response_shape (e : Env) (d : Payload) (tr : TransportRequest)
    (att : Option Attachment) (fs : FS) (hmk : mkTransportRequest d = .ok tr) :
    (submit_transport_request e (.ok d) att fs).result =
      .ok { success := true, request_id := requestId e.now e.rand,
            attachment_saved := attachmentOk att, excel_saved := !e.excelFail,
            processing_time_ms := e.elapsedMs, data_received := d } := by
  rw [submit_ok_eq e d tr att fs hmk]

theorem claim_C8_response_shape_witness :
    (submit_transport_request sampleEnv (.ok samplePayload) none emptyFS).result =
      .ok { success := true, request_id := requestId sampleEnv.now sampleEnv.rand,
            attachment_saved := attachmentOk none, excel_saved := !sampleEnv.excelFail,
            processing_time_ms := sampleEnv.elapsedMs, data_received := samplePayload } :=
  claim_C8_response_shape sampleEnv samplePayload sampleTR none emptyFS (by decide)

/-- C9: submission is not idempotent: resubmitting the identical
payload appends a second, distinct record (no deduplication), and when
the two clock/random draws differ the two responses carry distinct
request identifiers, as do the two stored records. -/
theorem claim_C9_not_idempotent (e₁ e₂ : Env) (d : Payload) (tr : TransportRequest)
    (att₁ att₂ : Option Attachment) (fs : FS)
    (hg₁ : e₁.validGen) (hg₂ : e₂.validGen)
    (hmk : mkTransportRequest d = .ok tr)
    (hf₁ : e₁.excelFail = false) (hf₂ : e₂.excelFail = false)
    (hne : (e₁.now, e₁.rand) ≠ (e₂.now, e₂.rand)) :
    ∃ resp₁ resp₂ r₁ r₂,
      (submit_transport_request e₁ (.ok d) att₁ fs).result = .ok resp₁ ∧
      (submit_transport_request e₂ (.ok d) att₂
        (submit_transport_request e₁ (.ok d) att₁ fs).fs).result = .ok resp₂ ∧
      resp₁.request_id ≠ resp₂.request_id ∧
      (submit_transport_request e₂ (.ok d) att₂
        (submit_transport_request e₁ (.ok d) att₁ fs).fs).fs.store =
        some (fs.store.getD [] ++ [r₁, r₂]) ∧
      r₁ ≠ r₂ ∧
      r₁.Request_ID = resp₁.request_id ∧ r₂.Request_ID = resp₂.request_id := by
  obtain ⟨hv₁, ha₁, hb₁⟩ := hg₁
  obtain ⟨hv₂, ha₂, hb₂⟩ := hg₂
  have hid : requestId e₁.now e₁.rand ≠ requestId e₂.now e₂.rand := by
    intro he
    obtain ⟨ht, hr⟩ := requestId_inj e₁.now e₂.now e₁.rand e₂.rand
      hv₁ hv₂ ha₁ hb₁ ha₂ hb₂ he
    exact hne (by rw [ht, hr])
  have h₁ := submit_ok_eq e₁ d tr att₁ fs hmk
  have h₂ := submit_ok_eq e₂ d tr att₂
    (submit_transport_request e₁ (.ok d) att₁ fs).fs hmk
  have hs₁ : (submit_transport_request e₁ (.ok d) att₁ fs).fs.store =
      some (fs.store.getD [] ++
        [row_data (requestId e₁.now e₁.rand) (isoformat e₁.saveTime e₁.saveMicro)
          d (attachmentOk att₁)]) := by
    rw [h₁]
    simp [hf₁]
  refine ⟨_, _,
    row_data (requestId e₁.now e₁.rand) (isoformat e₁.saveTime e₁.saveMicro)
      d (attachmentOk att₁),
    row_data (requestId e₂.now e₂.rand) (isoformat e₂.saveTime e₂.saveMicro)
      d (attachmentOk att₂),
    by rw [h₁], by rw [h₂], hid, ?_, ?_, rfl, rfl⟩
  · rw [h₂]
    simp [hf₂, hs₁, List.append_assoc]
  · intro hrow
    exact hid (congrArg StoredRecord.Request_ID hrow)

theorem claim_C9_not_idempotent_witness :
    ∃ resp₁ resp₂ r₁ r₂,
      (submit_transport_request sampleEnv (.ok samplePayload) none emptyFS).result =
        .ok resp₁ ∧
      (submit_transport_request sampleEnv2 (.ok samplePayload) none
        (submit_transport_request sampleEnv (.ok samplePayload) none
          emptyFS).fs).result = .ok resp₂ ∧
      resp₁.request_id ≠ resp₂.request_id ∧
      (submit_transport_request sampleEnv2 (.ok samplePayload) none
        (submit_transport_request sampleEnv (.ok samplePayload) none
          emptyFS).fs).fs.store =
        some (emptyFS.store.getD [] ++ [r₁, r₂]) ∧
      r₁ ≠ r₂ ∧
      r₁.Request_ID = resp₁.request_id ∧ r₂.Request_ID = resp₂.request_id :=
  claim_C9_not_idempotent sampleEnv sampleEnv2 samplePayload sampleTR none none
    emptyFS (by decide) (by decide) (by decide) rfl rfl (by decide)

end TransportApp
